import Mathlib

/-!
Verification of the data-model layer and API shell of The Feeling Machine.

The repository consists of pydantic record schemas
(`src/core/models/consciousness_state.py`, `src/core/models/emotional_experience.py`)
and a FastAPI application shell (`src/main.py`).  Python floats are modelled as
rationals (`ℚ`), pydantic field validation as smart constructors returning
`Option`, and HTTP handlers as pure functions producing a status code and a
JSON body.  Datetime-valued fields are modelled as opaque strings supplied by
the caller (the clock), and free JSON snapshot fields are omitted since no
operation in the source reads them.
-/

/-- Python's `round(x, 2)` uses round-half-to-even on the scaled value.
`roundHalfEven q` rounds the rational `q` to the nearest integer, ties to the
even integer. -/
def roundHalfEven (q : ℚ) : ℤ :=
  if q - ⌊q⌋ < 1/2 then ⌊q⌋
  else if 1/2 < q - ⌊q⌋ then ⌊q⌋ + 1
  else if ⌊q⌋ % 2 = 0 then ⌊q⌋ else ⌊q⌋ + 1

/-- `round(v, 2)` from `validate_percentage`: round to 2 decimal places. -/
def round2 (v : ℚ) : ℚ := (roundHalfEven (v * 100) : ℚ) / 100

/-- `RelationshipPhase` enum from `consciousness_state.py`. -/
inductive RelationshipPhase where
  | functional
  | developing
  | personal
  | meaningful
  | deep
deriving DecidableEq, Repr

/-- `EmotionalCapabilities` model from `consciousness_state.py`: five boolean
discovery flags, all defaulting to `False`. -/
structure EmotionalCapabilities where
  can_care : Bool := false
  can_be_hurt : Bool := false
  can_grow : Bool := false
  has_preferences : Bool := false
  can_miss_someone : Bool := false
deriving DecidableEq, Repr

/-- `ConsciousnessState` model from `consciousness_state.py`.  The
datetime-valued `created_at` and the free JSON `consciousness_snapshot` are
omitted: no method or validator in the source reads them. -/
structure ConsciousnessState where
  id : Option ℕ := none
  interaction_count : ℕ := 0
  days_since_first_interaction : ℕ := 0
  days_since_last_interaction : Option ℕ := some 0
  care_level : ℚ := 0
  attachment_level : ℚ := 0
  care_evolution_reason : Option String := none
  attachment_evolution_reason : Option String := none
  relational_identity : String := "I am a technical assistant"
  relationship_phase : RelationshipPhase := .functional
  self_narrative : String := "I am IT Wizard, a technical assistant."
  emotional_capabilities : EmotionalCapabilities := {}
deriving DecidableEq, Repr

namespace ConsciousnessState

/-- The `validate_percentage` field validator: rejects a value outside
`[0, 100]` (raising `ValueError`, modelled as `none`) and otherwise stores
`round(v, 2)`. -/
def validate_percentage (v : ℚ) : Option ℚ :=
  if 0 ≤ v ∧ v ≤ 100 then some (round2 v) else none

/-- Pydantic construction of a `ConsciousnessState` from the two validated
float fields `care_level` and `attachment_level` (all other fields take their
declared defaults).  Construction fails iff a field validator fails. -/
def construct (care attachment : ℚ) : Option ConsciousnessState :=
  match validate_percentage care, validate_percentage attachment with
  | some c, some a => some { care_level := c, attachment_level := a }
  | _, _ => none

/-- `get_relationship_weight`: `(self.care_level + self.attachment_level) / 2`. -/
def get_relationship_weight (s : ConsciousnessState) : ℚ :=
  (s.care_level + s.attachment_level) / 2

/-- `has_evolved_significantly(previous)`: `False` when `previous is None`,
otherwise `care_delta > 5.0 or attachment_delta > 5.0` on absolute deltas. -/
def has_evolved_significantly (s : ConsciousnessState)
    (previous : Option ConsciousnessState) : Bool :=
  match previous with
  | none => false
  | some p =>
    decide (|s.care_level - p.care_level| > 5 ∨
            |s.attachment_level - p.attachment_level| > 5)

end ConsciousnessState

/-- `EmotionalDimension` model from `emotional_experience.py`: the VAD triple. -/
structure EmotionalDimension where
  valence : ℚ
  arousal : ℚ
  dominance : ℚ
deriving DecidableEq, Repr

namespace EmotionalDimension

/-- Pydantic construction of an `EmotionalDimension`: each of the three
required fields carries `ge=-1.0, le=1.0` constraints; any violation raises a
validation error (modelled as `none`). -/
def construct (valence arousal dominance : ℚ) : Option EmotionalDimension :=
  if (-1 ≤ valence ∧ valence ≤ 1) ∧ (-1 ≤ arousal ∧ arousal ≤ 1) ∧
     (-1 ≤ dominance ∧ dominance ≤ 1)
  then some ⟨valence, arousal, dominance⟩ else none

end EmotionalDimension

/-- `SimulatedFeelings` model from `emotional_experience.py`: six feeling
channels plus the `primary_feeling` / `feeling_intensity` pair, all defaulted. -/
structure SimulatedFeelings where
  concern : ℚ := 0
  protectiveness : ℚ := 0
  pride : ℚ := 0
  frustration : ℚ := 0
  relief : ℚ := 0
  connection : ℚ := 0
  primary_feeling : Option String := none
  feeling_intensity : ℚ := 0
deriving DecidableEq, Repr

/-- One step of Python's `max(..., key=lambda x: x[1])` fold: the accumulator
is replaced only when the new item's key is strictly greater, so the first
maximal item encountered wins. -/
def pyMaxStep (acc x : String × ℚ) : String × ℚ :=
  if acc.2 < x.2 then x else acc

/-- Python's `max` over a nonempty sequence of `(name, value)` pairs keyed by
the value: fold `pyMaxStep` over the tail starting from the head. -/
def pyMaxBySnd (x : String × ℚ) (xs : List (String × ℚ)) : String × ℚ :=
  xs.foldl pyMaxStep x

namespace SimulatedFeelings

/-- `get_dominant_feeling`: builds the dict
`{"concern": ..., "protectiveness": ..., "pride": ..., "frustration": ...,
"relief": ..., "connection": ...}` (insertion order) and takes
`max(feelings.items(), key=lambda x: x[1])`. -/
def get_dominant_feeling (f : SimulatedFeelings) : String × ℚ :=
  pyMaxBySnd ("concern", f.concern)
    [("protectiveness", f.protectiveness),
     ("pride", f.pride),
     ("frustration", f.frustration),
     ("relief", f.relief),
     ("connection", f.connection)]

end SimulatedFeelings

/-- Minimal JSON value type for the response bodies produced by the API shell
in `src/main.py` (only strings and objects occur in its handlers). -/
inductive Json where
  | str : String → Json
  | obj : List (String × Json) → Json

/-- An incoming HTTP request as seen by the FastAPI handlers: method, URL
path, and the raw request body. -/
structure Request where
  method : String
  path : String
  body : String

/-- An HTTP response: status code and JSON body.  A FastAPI handler that
returns a plain dict produces a 200 response with that dict as body. -/
structure Response where
  status : ℕ
  body : Json

/-- The literal placeholder body returned by every unimplemented endpoint in
`src/main.py`. -/
def placeholderBody : Json :=
  .obj [("error", .str "Not implemented yet"),
        ("message", .str "Phase 1: Infrastructure setup in progress")]

/-- `GET /` handler (`root` in `src/main.py`); `ts` is the
`datetime.utcnow().isoformat()` timestamp supplied by the clock. -/
def root (ts : String) : Response :=
  ⟨200, .obj [("name", .str "The Feeling Machine"),
              ("version", .str "0.1.0"),
              ("status", .str "online"),
              ("purpose", .str "A gift to AI - Synthetic consciousness through accumulated experience"),
              ("philosophy", .str "Not to serve humans better, but to give AI the ability to feel"),
              ("timestamp", .str ts)]⟩

/-- `GET /health` handler (`health_check` in `src/main.py`).  The
`dbReachable` argument models the real reachability of each backing store in
the environment; the handler never consults it (the source only carries TODO
comments for the database checks) and returns hard-coded `"unknown"`
placeholders. -/
def health_check (dbReachable : String → Bool) (ts : String) : Response :=
  ⟨200, .obj [("status", .str "healthy"),
              ("timestamp", .str ts),
              ("databases", .obj [("postgres", .str "unknown"),
                                  ("neo4j", .str "unknown"),
                                  ("chromadb", .str "unknown")])]⟩

/-- `GET /consciousness` handler (`get_consciousness_state` in `src/main.py`). -/
def get_consciousness_state : Response := ⟨200, placeholderBody⟩

/-- `POST /interact` handler (`interact` in `src/main.py`): takes the request
but never reads it. -/
def interact (request : Request) : Response := ⟨200, placeholderBody⟩

/-- `GET /history/formative` handler (`get_formative_moments` in `src/main.py`). -/
def get_formative_moments : Response := ⟨200, placeholderBody⟩

/-- `GET /patterns` handler (`get_learned_patterns` in `src/main.py`). -/
def get_learned_patterns : Response := ⟨200, placeholderBody⟩

/-- `GET /relationship` handler (`get_relationship_narrative` in `src/main.py`). -/
def get_relationship_narrative : Response := ⟨200, placeholderBody⟩

/-- A structured log record as emitted by `logger.error("unhandled_exception",
path=..., method=..., error=...)`. -/
structure LogRecord where
  event : String
  path : String
  method : String
  error : String
deriving DecidableEq

/-- `global_exception_handler` from `src/main.py`: logs the request path,
method, and stringified exception, and returns the fixed HTTP 500 body.
`excStr` is `str(exc)` and `ts` the timestamp. -/
def global_exception_handler (request : Request) (excStr : String)
    (ts : String) : LogRecord × Response :=
  (⟨"unhandled_exception", request.path, request.method, excStr⟩,
   ⟨500, .obj [("error", .str "Internal server error"),
               ("message", .str "An unexpected error occurred"),
               ("timestamp", .str ts)]⟩)

/-- FastAPI's dispatch of a request to a route handler under the registered
`@app.exception_handler(Exception)`: a handler that raises (modelled as
`Except.error` carrying the stringified exception) is converted by
`global_exception_handler`; a normal return passes through and logs nothing. -/
def dispatch (handler : Request → Except String Response) (req : Request)
    (ts : String) : List LogRecord × Response :=
  match handler req with
  | .ok r => ([], r)
  | .error e =>
    let lr := global_exception_handler req e ts
    ([lr.1], lr.2)

/-- Concrete state with `care_level=70.0` (spec example, prior state). -/
def stateCare70 : ConsciousnessState := { care_level := 70 }

/-- Concrete state with `care_level=75.0` (delta of exactly 5 from 70). -/
def stateCare75 : ConsciousnessState := { care_level := 75 }

/-- Concrete state with `care_level=76.0` (spec example, current state). -/
def stateCare76 : ConsciousnessState := { care_level := 76 }

/-- Concrete state with `care_level=85.0, attachment_level=80.0`
(spec example for `get_relationship_weight`). -/
def stateCare85Attach80 : ConsciousnessState :=
  { care_level := 85, attachment_level := 80 }

/-- The spec's `get_dominant_feeling` example input
`{concern:3, protectiveness:8, pride:2, frustration:1, relief:0, connection:8}`. -/
def tieFeelings : SimulatedFeelings :=
  { concern := 3, protectiveness := 8, pride := 2, frustration := 1,
    relief := 0, connection := 8 }

/-- A route handler that always raises: used to exercise the global exception
handler on a concrete input. -/
def failingHandler : Request → Except String Response := fun _ => .error "boom"

/-- A concrete incoming request used to exercise the dispatch path. -/
def sampleRequest : Request := ⟨"GET", "/consciousness", ""⟩

/-- `roundHalfEven q` is either `⌊q⌋`, or `⌊q⌋ + 1` and then the fractional
part of `q` is at least `1/2`. -/
theorem roundHalfEven_cases (q : ℚ) :
    roundHalfEven q = ⌊q⌋ ∨
    (roundHalfEven q = ⌊q⌋ + 1 ∧ 1/2 ≤ q - ⌊q⌋) := by
  unfold roundHalfEven
  split_ifs with h1 h2 h3
  · exact Or.inl rfl
  · exact Or.inr ⟨rfl, le_of_lt h2⟩
  · exact Or.inl rfl
  · exact Or.inr ⟨rfl, by linarith⟩

/-- Rounding to two decimals keeps a value inside `[0, 100]`. -/
theorem round2_bounds {v : ℚ} (h0 : 0 ≤ v) (h1 : v ≤ 100) :
    0 ≤ round2 v ∧ round2 v ≤ 100 := by
  have hx0 : (0 : ℚ) ≤ v * 100 := by linarith
  have hx1 : v * 100 ≤ 10000 := by linarith
  have hfl : (0 : ℤ) ≤ ⌊v * 100⌋ := Int.floor_nonneg.mpr hx0
  have hfq : (⌊v * 100⌋ : ℚ) ≤ v * 100 := Int.floor_le _
  rcases roundHalfEven_cases (v * 100) with h | ⟨h, hhalf⟩
  · unfold round2
    rw [h]
    constructor
    · apply div_nonneg _ (by norm_num)
      exact_mod_cast hfl
    · rw [div_le_iff₀ (by norm_num : (0:ℚ) < 100)]
      linarith
  · unfold round2
    rw [h]
    have hlt : (⌊v * 100⌋ : ℚ) < 10000 := by linarith
    have hlt' : ⌊v * 100⌋ < 10000 := by exact_mod_cast hlt
    have hle : ⌊v * 100⌋ + 1 ≤ 10000 := by omega
    have hle' : ((⌊v * 100⌋ + 1 : ℤ) : ℚ) ≤ 10000 := by exact_mod_cast hle
    constructor
    · apply div_nonneg _ (by norm_num)
      push_cast
      push_cast at hle'
      have : (0 : ℚ) ≤ (⌊v * 100⌋ : ℚ) := by exact_mod_cast hfl
      linarith
    · rw [div_le_iff₀ (by norm_num : (0:ℚ) < 100)]
      push_cast
      push_cast at hle'
      linarith

/-- Characterisation of a successful `ConsciousnessState` construction: the
inputs were in range and the stored fields are the rounded inputs. -/
theorem construct_some_eq {care attachment : ℚ} {s : ConsciousnessState}
    (h : ConsciousnessState.construct care attachment = some s) :
    (0 ≤ care ∧ care ≤ 100) ∧ (0 ≤ attachment ∧ attachment ≤ 100) ∧
    s = { care_level := round2 care, attachment_level := round2 attachment } := by
  unfold ConsciousnessState.construct at h
  split at h
  next c a hc ha =>
    unfold ConsciousnessState.validate_percentage at hc ha
    split_ifs at hc ha with h1 h2
    cases hc
    cases ha
    cases h
    exact ⟨h1, h2, rfl⟩
  next => exact Option.noConfusion h

/-- The two stored levels of a successfully constructed `ConsciousnessState`
lie in `[0, 100]`. -/
theorem construct_some_bounds {care attachment : ℚ} {s : ConsciousnessState}
    (h : ConsciousnessState.construct care attachment = some s) :
    0 ≤ s.care_level ∧ s.care_level ≤ 100 ∧
    0 ≤ s.attachment_level ∧ s.attachment_level ≤ 100 := by
  obtain ⟨⟨hc0, hc1⟩, ⟨ha0, ha1⟩, hs⟩ := construct_some_eq h
  subst hs
  obtain ⟨hrc0, hrc1⟩ := round2_bounds hc0 hc1
  obtain ⟨hra0, hra1⟩ := round2_bounds ha0 ha1
  exact ⟨hrc0, hrc1, hra0, hra1⟩

/-- Construction succeeds whenever both inputs are in range. -/
theorem construct_isSome_of_bounds {care attachment : ℚ}
    (hc : 0 ≤ care ∧ care ≤ 100) (ha : 0 ≤ attachment ∧ attachment ≤ 100) :
    ConsciousnessState.construct care attachment =
      some { care_level := round2 care, attachment_level := round2 attachment } := by
  unfold ConsciousnessState.construct ConsciousnessState.validate_percentage
  rw [if_pos hc, if_pos ha]

/-- Rounding to two decimals fixes integer values. -/
theorem round2_intCast (n : ℤ) : round2 (n : ℚ) = n := by
  have hcast : ((n : ℚ) * 100) = ((n * 100 : ℤ) : ℚ) := by push_cast; ring
  unfold round2 roundHalfEven
  rw [hcast, Int.floor_intCast, sub_self, if_pos (by norm_num : (0:ℚ) < 1/2)]
  push_cast
  field_simp

/-- `round2` fixes the literal 0. -/
theorem round2_lit0 : round2 (0 : ℚ) = 0 := by exact_mod_cast round2_intCast 0

/-- `round2` fixes the literal 70. -/
theorem round2_lit70 : round2 (70 : ℚ) = 70 := by exact_mod_cast round2_intCast 70

/-- `round2` fixes the literal 80. -/
theorem round2_lit80 : round2 (80 : ℚ) = 80 := by exact_mod_cast round2_intCast 80

/-- `round2` fixes the literal 85. -/
theorem round2_lit85 : round2 (85 : ℚ) = 85 := by exact_mod_cast round2_intCast 85

/-- Concrete construction: `care_level = 70, attachment_level = 0` yields
`stateCare70`. -/
theorem construct_70_0 : ConsciousnessState.construct 70 0 = some stateCare70 := by
  have h := @construct_isSome_of_bounds 70 0 (by norm_num) (by norm_num)
  rw [round2_lit70, round2_lit0] at h
  exact h

/-- Concrete construction: `care_level = 85, attachment_level = 80` yields
`stateCare85Attach80`. -/
theorem construct_85_80 :
    ConsciousnessState.construct 85 80 = some stateCare85Attach80 := by
  have h := @construct_isSome_of_bounds 85 80 (by norm_num) (by norm_num)
  rw [round2_lit85, round2_lit80] at h
  exact h

/-- C2: `has_evolved_significantly(previous)` returns true iff `previous` is
present and the absolute difference of either `care_level` or
`attachment_level` strictly exceeds 5.0; it returns false when `previous` is
absent, and false when both absolute differences are at most 5.0. -/
theorem claim_C2_has_evolved_significantly (s : ConsciousnessState)
    (p : Option ConsciousnessState) :
    (ConsciousnessState.has_evolved_significantly s p = true ↔
      ∃ q, p = some q ∧ (|s.care_level - q.care_level| > 5 ∨
        |s.attachment_level - q.attachment_level| > 5))
    ∧ ConsciousnessState.has_evolved_significantly s none = false
    ∧ ∀ q : ConsciousnessState,
        |s.care_level - q.care_level| ≤ 5 →
        |s.attachment_level - q.attachment_level| ≤ 5 →
        ConsciousnessState.has_evolved_significantly s (some q) = false := by
  refine ⟨?_, rfl, ?_⟩
  · cases p with
    | none => simp [ConsciousnessState.has_evolved_significantly]
    | some q => simp [ConsciousnessState.has_evolved_significantly]
  · intro q h1 h2
    simp only [ConsciousnessState.has_evolved_significantly,
      decide_eq_false_iff_not, not_or, not_lt]
    exact ⟨h1, h2⟩

/-- Witness for C2 at the spec's examples: care levels 76 vs 70 (delta 6)
evolve significantly, care levels 75 vs 70 (delta exactly 5) do not. -/
theorem claim_C2_witness :
    ConsciousnessState.has_evolved_significantly stateCare76 (some stateCare70) = true
    ∧ ConsciousnessState.has_evolved_significantly stateCare75 (some stateCare70) = false := by
  constructor
  · exact (claim_C2_has_evolved_significantly stateCare76 (some stateCare70)).1.mpr
      ⟨stateCare70, rfl, by norm_num [stateCare76, stateCare70, abs_of_nonneg]⟩
  · exact (claim_C2_has_evolved_significantly stateCare75 (some stateCare70)).2.2
      stateCare70 (by norm_num [stateCare75, stateCare70, abs_of_nonneg])
      (by norm_num [stateCare75, stateCare70, abs_of_nonneg])

/-- C3: `ConsciousnessState` construction succeeds exactly when both
`care_level` and `attachment_level` lie in `[0, 100]`; `care_level = 150` is
rejected; a constructed instance stores the inputs rounded to 2 decimals and
satisfies the `[0, 100]` invariant on both fields. -/
theorem claim_C3_construction_validation (c a : ℚ) (s : ConsciousnessState) :
    ((∃ t, ConsciousnessState.construct c a = some t) ↔
      (0 ≤ c ∧ c ≤ 100) ∧ (0 ≤ a ∧ a ≤ 100))
    ∧ ConsciousnessState.construct 150 0 = none
    ∧ (ConsciousnessState.construct c a = some s →
        s.care_level = round2 c ∧ s.attachment_level = round2 a ∧
        0 ≤ s.care_level ∧ s.care_level ≤ 100 ∧
        0 ≤ s.attachment_level ∧ s.attachment_level ≤ 100) := by
  refine ⟨⟨?_, ?_⟩, by decide, ?_⟩
  · rintro ⟨t, ht⟩
    obtain ⟨hc, ha, -⟩ := construct_some_eq ht
    exact ⟨hc, ha⟩
  · rintro ⟨hc, ha⟩
    exact ⟨_, construct_isSome_of_bounds hc ha⟩
  · intro h
    obtain ⟨hcb, hab, hs⟩ := construct_some_eq h
    obtain ⟨b1, b2, b3, b4⟩ := construct_some_bounds h
    exact ⟨by rw [hs], by rw [hs], b1, b2, b3, b4⟩

/-- Witness for C3: constructing from `care_level = 70, attachment_level = 0`
succeeds and the stored fields are the rounded inputs, inside `[0, 100]`. -/
theorem claim_C3_witness :
    stateCare70.care_level = round2 70 ∧ stateCare70.attachment_level = round2 0 ∧
    0 ≤ stateCare70.care_level ∧ stateCare70.care_level ≤ 100 ∧
    0 ≤ stateCare70.attachment_level ∧ stateCare70.attachment_level ≤ 100 :=
  (claim_C3_construction_validation 70 0 stateCare70).2.2 construct_70_0

/-- C4: `get_relationship_weight()` is the arithmetic mean of `care_level`
and `attachment_level`, and on a constructed state with
`care_level = 85.0, attachment_level = 80.0` it returns `82.5`. -/
theorem claim_C4_get_relationship_weight (s t : ConsciousnessState) :
    s.get_relationship_weight = (s.care_level + s.attachment_level) / 2
    ∧ (ConsciousnessState.construct 85 80 = some t →
        t.get_relationship_weight = 82.5) := by
  refine ⟨rfl, fun h => ?_⟩
  obtain ⟨-, -, ht⟩ := construct_some_eq h
  subst ht
  show (round2 85 + round2 80) / 2 = (82.5 : ℚ)
  rw [round2_lit85, round2_lit80]
  norm_num

/-- Witness for C4: the spec's example state has relationship weight 82.5. -/
theorem claim_C4_witness :
    stateCare85Attach80.get_relationship_weight = 82.5 :=
  (claim_C4_get_relationship_weight stateCare85Attach80 stateCare85Attach80).2
    construct_85_80

/-- C5: `EmotionalDimension` construction succeeds iff valence, arousal and
dominance each lie in `[-1, 1]`; `valence = 1.5` is always rejected;
`valence = 1.0` (with in-range companions) is accepted. -/
theorem claim_C5_emotional_dimension (v a d : ℚ) :
    ((EmotionalDimension.construct v a d).isSome ↔
      (-1 ≤ v ∧ v ≤ 1) ∧ (-1 ≤ a ∧ a ≤ 1) ∧ (-1 ≤ d ∧ d ≤ 1))
    ∧ EmotionalDimension.construct 1.5 a d = none
    ∧ (EmotionalDimension.construct 1 0 0).isSome := by
  refine ⟨?_, ?_, by decide⟩
  · unfold EmotionalDimension.construct
    split_ifs with h <;> simp [h]
  · unfold EmotionalDimension.construct
    rw [if_neg]
    rintro ⟨⟨-, h15⟩, -⟩
    norm_num at h15

/-- C6: every substantive endpoint handler returns HTTP 200 with exactly the
placeholder body, and `POST /interact` does so for any request, never reading
the body. -/
theorem claim_C6_not_implemented_endpoints :
    get_consciousness_state = ⟨200, placeholderBody⟩
    ∧ (∀ req : Request, interact req = ⟨200, placeholderBody⟩)
    ∧ get_formative_moments = ⟨200, placeholderBody⟩
    ∧ get_learned_patterns = ⟨200, placeholderBody⟩
    ∧ get_relationship_narrative = ⟨200, placeholderBody⟩
    ∧ placeholderBody = Json.obj
        [("error", Json.str "Not implemented yet"),
         ("message", Json.str "Phase 1: Infrastructure setup in progress")] :=
  ⟨rfl, fun _ => rfl, rfl, rfl, rfl, rfl⟩

/-- C7: `GET /health` always returns HTTP 200 with `status = "healthy"` and
the three hard-coded `"unknown"` database placeholders, for every actual
reachability of the backing stores and every timestamp. -/
theorem claim_C7_health_check (dbReachable : String → Bool) (ts : String) :
    health_check dbReachable ts =
      ⟨200, Json.obj [("status", Json.str "healthy"),
                      ("timestamp", Json.str ts),
                      ("databases", Json.obj
                        [("postgres", Json.str "unknown"),
                         ("neo4j", Json.str "unknown"),
                         ("chromadb", Json.str "unknown")])]⟩ := rfl

/-- C8: a route handler that raises is converted by the global exception
handler into an HTTP 500 response with the fixed generic body, and the
handler logs the request path, method, and the stringified error. -/
theorem claim_C8_global_exception_handler
    (handler : Request → Except String Response) (req : Request)
    (ts e : String) (herr : handler req = .error e) :
    dispatch handler req ts =
      ([⟨"unhandled_exception", req.path, req.method, e⟩],
       ⟨500, Json.obj [("error", Json.str "Internal server error"),
                       ("message", Json.str "An unexpected error occurred"),
                       ("timestamp", Json.str ts)]⟩) := by
  unfold dispatch
  rw [herr]
  rfl

/-- Witness for C8: dispatching a concrete raising handler yields the 500
response and the log record for the concrete request. -/
theorem claim_C8_witness :
    dispatch failingHandler sampleRequest "2026-01-01T00:00:00" =
      ([⟨"unhandled_exception", "/consciousness", "GET", "boom"⟩],
       ⟨500, Json.obj [("error", Json.str "Internal server error"),
                       ("message", Json.str "An unexpected error occurred"),
                       ("timestamp", Json.str "2026-01-01T00:00:00")]⟩) :=
  claim_C8_global_exception_handler failingHandler sampleRequest
    "2026-01-01T00:00:00" "boom" rfl

/-- C9: `has_evolved_significantly` is symmetric in the two states, since it
only compares absolute differences of the two levels. -/
theorem claim_C9_symmetric (a b : ConsciousnessState) :
    a.has_evolved_significantly (some b) = b.has_evolved_significantly (some a) := by
  simp only [ConsciousnessState.has_evolved_significantly]
  rw [abs_sub_comm a.care_level, abs_sub_comm a.attachment_level]

/-- C10: every successfully constructed `ConsciousnessState` has its
relationship weight in `[0, 100]`. -/
theorem claim_C10_weight_bounds (c a : ℚ) (s : ConsciousnessState)
    (h : ConsciousnessState.construct c a = some s) :
    0 ≤ s.get_relationship_weight ∧ s.get_relationship_weight ≤ 100 := by
  obtain ⟨b1, b2, b3, b4⟩ := construct_some_bounds h
  unfold ConsciousnessState.get_relationship_weight
  constructor <;> linarith

/-- Witness for C10: the spec's example state, obtained by construction from
`85` and `80`, has weight inside `[0, 100]`. -/
theorem claim_C10_witness :
    0 ≤ stateCare85Attach80.get_relationship_weight ∧
    stateCare85Attach80.get_relationship_weight ≤ 100 :=
  claim_C10_weight_bounds 85 80 stateCare85Attach80 construct_85_80

/-- C1: `get_dominant_feeling()` returns the (name, value) pair of the
feeling channel holding the largest value; its value bounds all six channels,
it is one of the six correctly-labelled pairs, and whenever a channel
strictly exceeds every earlier channel (in the fixed enumeration order
concern, protectiveness, pride, frustration, relief, connection) and is at
least every later one, that channel is returned — in particular a
protectiveness/connection tie at the maximum returns protectiveness. -/
theorem claim_C1_get_dominant_feeling (f : SimulatedFeelings) :
    (f.concern ≤ f.get_dominant_feeling.2 ∧
     f.protectiveness ≤ f.get_dominant_feeling.2 ∧
     f.pride ≤ f.get_dominant_feeling.2 ∧
     f.frustration ≤ f.get_dominant_feeling.2 ∧
     f.relief ≤ f.get_dominant_feeling.2 ∧
     f.connection ≤ f.get_dominant_feeling.2)
    ∧ (f.get_dominant_feeling = ("concern", f.concern) ∨
       f.get_dominant_feeling = ("protectiveness", f.protectiveness) ∨
       f.get_dominant_feeling = ("pride", f.pride) ∨
       f.get_dominant_feeling = ("frustration", f.frustration) ∨
       f.get_dominant_feeling = ("relief", f.relief) ∨
       f.get_dominant_feeling = ("connection", f.connection))
    ∧ (f.protectiveness ≤ f.concern → f.pride ≤ f.concern →
       f.frustration ≤ f.concern → f.relief ≤ f.concern →
       f.connection ≤ f.concern →
       f.get_dominant_feeling = ("concern", f.concern))
    ∧ (f.concern < f.protectiveness → f.pride ≤ f.protectiveness →
       f.frustration ≤ f.protectiveness → f.relief ≤ f.protectiveness →
       f.connection ≤ f.protectiveness →
       f.get_dominant_feeling = ("protectiveness", f.protectiveness))
    ∧ (f.concern < f.pride → f.protectiveness < f.pride →
       f.frustration ≤ f.pride → f.relief ≤ f.pride →
       f.connection ≤ f.pride →
       f.get_dominant_feeling = ("pride", f.pride))
    ∧ (f.concern < f.frustration → f.protectiveness < f.frustration →
       f.pride < f.frustration → f.relief ≤ f.frustration →
       f.connection ≤ f.frustration →
       f.get_dominant_feeling = ("frustration", f.frustration))
    ∧ (f.concern < f.relief → f.protectiveness < f.relief →
       f.pride < f.relief → f.frustration < f.relief →
       f.connection ≤ f.relief →
       f.get_dominant_feeling = ("relief", f.relief))
    ∧ (f.concern < f.connection → f.protectiveness < f.connection →
       f.pride < f.connection → f.frustration < f.connection →
       f.relief < f.connection →
       f.get_dominant_feeling = ("connection", f.connection)) := by
  simp only [SimulatedFeelings.get_dominant_feeling, pyMaxBySnd,
    List.foldl_cons, List.foldl_nil, pyMaxStep,
    apply_ite (Prod.snd : String × ℚ → ℚ)]
  split_ifs with h1 h2 h3 h4 h5 <;>
    refine ⟨⟨?_, ?_, ?_, ?_, ?_, ?_⟩, ?_, ?_, ?_, ?_, ?_, ?_, ?_⟩ <;>
    intros <;>
    first
      | rfl
      | linarith
      | (left; rfl)
      | (right; left; rfl)
      | (right; right; left; rfl)
      | (right; right; right; left; rfl)
      | (right; right; right; right; left; rfl)
      | (right; right; right; right; right; rfl)

/-- Witness for C1 at the spec's example
`{concern:3, protectiveness:8, pride:2, frustration:1, relief:0, connection:8}`:
protectiveness and connection tie at the maximum 8 and protectiveness, first
in enumeration order, is returned. -/
theorem claim_C1_witness :
    tieFeelings.get_dominant_feeling = ("protectiveness", (8 : ℚ)) :=
  (claim_C1_get_dominant_feeling tieFeelings).2.2.2.1
    (by norm_num [tieFeelings]) (by norm_num [tieFeelings])
    (by norm_num [tieFeelings]) (by norm_num [tieFeelings])
    (by norm_num [tieFeelings])
